import Mathlib

/-!
Verification of the TSC2046 touch-screen controller driver.

The development shallowly embeds the driver sources:
  * `src/types.rs` — the `ControlBit` bitflag constants and the `Axes`
    enumeration with its `ctrl_bits` mapping;
  * `src/lib.rs`  — the `Tsc2046` driver: command-word assembly,
    single-axis reads, configuration transactions and `get_touch`.

Machine integers (`u8`, `u16`) are embedded as `Nat` (all operations stay
below the width, masking is explicit where the source masks).  The Rust
`f32` values are embedded by the executable IEEE-754 binary32 model `F32`
below: a float is NaN, a signed infinity, or an exact rational value, and
every arithmetic operation rounds its exact rational result to nearest,
ties to even, exactly as IEEE-754 prescribes for binary32.  The SPI bus
(`embedded_hal::spi::SpiDevice`) is embedded as a function from the
transaction index to the device's reply (an error, or the two bytes the
device places in the read buffer), together with explicit state passing of
a transaction counter and a log of the performed transactions.
-/

set_option maxRecDepth 4000

deriving instance DecidableEq for Except

namespace TSC2046

/-! ## IEEE-754 binary32 model -/

/-- An IEEE-754 binary32 value: NaN, a signed infinity, or a finite value
given by its exact rational magnitude (zero is unsigned in this model; the
driver's computations never produce a negative zero whose sign matters). -/
inductive F32 where
  | nan : F32
  | inf : Bool → F32
  | fin : ℚ → F32
  deriving DecidableEq

/-- Fuel-driven base-2 logarithm on `Nat` (structural recursion, so it
computes by kernel reduction; the fuel `n` always suffices). -/
def natLog2Aux : Nat → Nat → Nat
  | 0, _ => 0
  | fuel + 1, n => if n < 2 then 0 else natLog2Aux fuel (n / 2) + 1

/-- The value `natLog2 n` is `⌊log₂ n⌋` for `n ≥ 1` (and `0` at `0`). -/
def natLog2 (n : Nat) : Nat := natLog2Aux n n

/-- The rational `2 ^ z` for an integer exponent `z`. -/
def pow2 (z : Int) : ℚ :=
  if 0 ≤ z then ((2 ^ z.toNat : ℕ) : ℚ) else 1 / ((2 ^ (-z).toNat : ℕ) : ℚ)

/-- For `0 < q`, the integer `z` with `pow2 z ≤ q < pow2 (z + 1)`. -/
def ilog2q (q : ℚ) : Int :=
  let z0 : Int := (natLog2 q.num.natAbs : Int) - (natLog2 q.den : Int)
  if q < pow2 z0 then z0 - 1
  else if q < pow2 (z0 + 1) then z0
  else z0 + 1

/-- Round a nonnegative rational to a natural number, ties to even. -/
def rndHalfEven (q : ℚ) : Nat :=
  let f := q.floor.toNat
  let r := q - (f : ℚ)
  if r < 1 / 2 then f
  else if 1 / 2 < r then f + 1
  else if f % 2 = 0 then f else f + 1

/-- Round a positive rational to binary32 (round to nearest, ties to even):
scale by the ulp exponent `k` (clamped at `-149` for subnormals), round the
scaled significand half-to-even, and overflow to infinity at `2 ^ 128`. -/
def roundPos (q : ℚ) : F32 :=
  let k : Int := max (-149) (ilog2q q - 23)
  let m := rndHalfEven (q / pow2 k)
  let v := (m : ℚ) * pow2 k
  if (2 ^ 128 : ℚ) ≤ v then .inf false else .fin v

/-- Round an exact rational result to binary32, round to nearest, ties to
even. -/
def round (q : ℚ) : F32 :=
  if 0 < q then roundPos q
  else if q < 0 then
    match roundPos (-q) with
    | .inf _ => .inf true
    | .fin v => .fin (-v)
    | .nan => .nan
  else .fin 0

/-- binary32 multiplication: propagate NaN, handle infinities and the
`0 × ∞ = NaN` case, and round the exact product of finite operands. -/
def fmul : F32 → F32 → F32
  | .nan, _ => .nan
  | _, .nan => .nan
  | .inf s1, .inf s2 => .inf (xor s1 s2)
  | .inf s1, .fin q => if q = 0 then .nan else .inf (xor s1 (decide (q < 0)))
  | .fin q, .inf s2 => if q = 0 then .nan else .inf (xor (decide (q < 0)) s2)
  | .fin a, .fin b => round (a * b)

/-- binary32 division: propagate NaN, `∞ / ∞ = NaN`, finite over infinity
is zero, division by zero gives NaN (`0 / 0`) or a signed infinity, and
the exact quotient of finite operands is rounded. -/
def fdiv : F32 → F32 → F32
  | .nan, _ => .nan
  | _, .nan => .nan
  | .inf _, .inf _ => .nan
  | .inf s1, .fin q => .inf (xor s1 (decide (q < 0)))
  | .fin _, .inf _ => .fin 0
  | .fin a, .fin b =>
    if b = 0 then (if a = 0 then .nan else .inf (decide (a < 0)))
    else round (a / b)

/-- binary32 subtraction: propagate NaN, `∞ − ∞ = NaN` for equal signs,
and round the exact difference of finite operands. -/
def fsub : F32 → F32 → F32
  | .nan, _ => .nan
  | _, .nan => .nan
  | .inf s1, .inf s2 => if s1 = s2 then .nan else .inf s1
  | .inf s1, .fin _ => .inf s1
  | .fin _, .inf s2 => .inf (!s2)
  | .fin a, .fin b => round (a - b)

/-- binary32 strict less-than: any comparison with NaN is false. -/
def flt : F32 → F32 → Bool
  | .nan, _ => false
  | _, .nan => false
  | .inf s1, .inf s2 => s1 && !s2
  | .inf s1, .fin _ => s1
  | .fin _, .inf s2 => !s2
  | .fin a, .fin b => decide (a < b)

/-- The Rust `u16 as f32` conversion of a raw sample.  Every `u16` (indeed
every natural below `2 ^ 24`) is exactly representable in binary32, so the
conversion is exact. -/
def natToF32 (n : Nat) : F32 := .fin (n : ℚ)

/-! ## `src/types.rs`: control bits and axes -/

/- The `ControlBit` bitflag constants of `src/types.rs`, as `u8` values
embedded in `Nat`. -/
namespace ControlBit

def PD0 : Nat := 0b00000001
def PD1 : Nat := 0b00000010
def SER : Nat := 0b00000100
def MODE : Nat := 0b00001000
def A0 : Nat := 0b00010000
def A1 : Nat := 0b00100000
def A2 : Nat := 0b01000000
def S : Nat := 0b10000000
def YPOS : Nat := A0
def VBAT : Nat := A1
def Z1 : Nat := A1 ||| A0
def Z2 : Nat := A2
def XPOS : Nat := A2 ||| A0
def AUX : Nat := A2 ||| A1

end ControlBit

/-- The `Axes` enumeration of `src/types.rs`. -/
inductive Axes where
  | X : Axes
  | Y : Axes
  | Z1 : Axes
  | Z2 : Axes
  deriving DecidableEq

/-- Function `Axes::ctrl_bits` of `src/types.rs`. -/
def Axes.ctrl_bits : Axes → Nat
  | .X => ControlBit.XPOS
  | .Y => ControlBit.YPOS
  | .Z1 => ControlBit.Z1
  | .Z2 => ControlBit.Z2

/-! ## `src/lib.rs`: the driver -/

/-- The command word built identically at the start of
`Tsc2046::update_register` (with `Axes::X`) and `Tsc2046::read_axis`
(lines 63-73 and 91-102 of `src/lib.rs`): start bit on, 12-bit mode,
differential mode, the axis select bits, and the PowerDown bits cleared
when the interrupt pin is enabled and set otherwise.  The bitflags
complement `!flag` on the fully-covered `u8` flag set is `0xFF ^^^ flag`. -/
def controlWord (axis : Axes) (irq_on : Bool) : Nat :=
  let cw := ControlBit.S
  let cw := cw &&& (0xFF ^^^ ControlBit.MODE)
  let cw := cw &&& (0xFF ^^^ ControlBit.SER)
  let cw := cw ||| axis.ctrl_bits
  if irq_on then
    (cw &&& (0xFF ^^^ ControlBit.PD0)) &&& (0xFF ^^^ ControlBit.PD1)
  else
    (cw ||| ControlBit.PD0) ||| ControlBit.PD1

/-- The opaque error of the SPI bus collaborator. -/
abbrev BusError := Nat

/-- One performed SPI transaction: the bytes written and the number of
bytes read (every driver transaction is a 1-byte write then a 2-byte read). -/
structure SpiTransaction where
  written : List Nat
  readLen : Nat
  deriving DecidableEq

/-- The mutable side of the SPI device: how many transactions have been
performed, and the log of the performed transactions. -/
structure SpiState where
  count : Nat
  log : List SpiTransaction
  deriving DecidableEq

/-- The behaviour of the SPI device: the reply to the `n`-th transaction,
either a bus error or the two bytes placed in the driver's read buffer. -/
abbrev SpiDevice := Nat → Except BusError (Nat × Nat)

/-- One `spi.transaction(&mut [Operation::Write(&[cw]), Operation::Read(&mut buf)])`
call: the device either fails the whole transaction or supplies the two
reply bytes; a successful transaction is appended to the log. -/
def spiTransaction (dev : SpiDevice) (cw : Nat) (s : SpiState) :
    Except BusError ((Nat × Nat) × SpiState) :=
  match dev s.count with
  | .error e => .error e
  | .ok b => .ok (b, ⟨s.count + 1, s.log ++ [⟨[cw], 2⟩]⟩)

/-- The driver state of `Tsc2046` (the SPI handle is passed explicitly). -/
structure Tsc2046 where
  irq_on : Bool
  touch_threshold : F32
  deriving DecidableEq

/-- Struct `TouchPoint` of `src/lib.rs`. -/
structure TouchPoint where
  x : Nat
  y : Nat
  z : F32
  deriving DecidableEq

/-- Method `Tsc2046::update_register`: issue one transaction writing the
X-channel command word for the current irq flag and reading two bytes. -/
def update_register (dev : SpiDevice) (d : Tsc2046) (s : SpiState) :
    Except BusError SpiState :=
  match spiTransaction dev (controlWord .X d.irq_on) s with
  | .error e => .error e
  | .ok (_, s') => .ok s'

/-- Constructor `Tsc2046::new`: store the configuration, then issue the initial
`update_register` transaction; fail without producing an instance if it
fails. -/
def Tsc2046.new (dev : SpiDevice) (irq_on : Bool) (touch_threshold : F32)
    (s : SpiState) : Except BusError (Tsc2046 × SpiState) :=
  let inst : Tsc2046 := ⟨irq_on, touch_threshold⟩
  match update_register dev inst s with
  | .error e => .error e
  | .ok s' => .ok (inst, s')

/-- Decoding of the two reply bytes in `Tsc2046::read_axis` (line 109 of
`src/lib.rs`): `(((buf[0] as u16) << 8 | buf[1] as u16) >> 3) & 0xFFF`.
The `% 256` makes the `u8` range of the buffer bytes explicit. -/
def decode (b0 b1 : Nat) : Nat :=
  ((((b0 % 256) <<< 8) ||| (b1 % 256)) >>> 3) &&& 0xFFF

/-- Method `Tsc2046::read_axis`: write the axis command word, read two bytes,
decode the 12-bit sample. -/
def read_axis (dev : SpiDevice) (d : Tsc2046) (axis : Axes) (s : SpiState) :
    Except BusError (Nat × SpiState) :=
  match spiTransaction dev (controlWord axis d.irq_on) s with
  | .error e => .error e
  | .ok (b, s') => .ok (decode b.1 b.2, s')

/-- Method `Tsc2046::set_irq`: update the irq flag, then issue the
`update_register` transaction; the updated driver is returned alongside
the transaction result because the flag is written before the transaction
is attempted. -/
def set_irq (dev : SpiDevice) (d : Tsc2046) (enable_irq : Bool)
    (s : SpiState) : Except BusError SpiState × Tsc2046 :=
  let d' : Tsc2046 := { d with irq_on := enable_irq }
  (update_register dev d' s, d')

/-- Method `Tsc2046::set_touch_threshold`: pure state update. -/
def set_touch_threshold (d : Tsc2046) (touch_threshold : F32) : Tsc2046 :=
  { d with touch_threshold := touch_threshold }

/-- The pressure estimate computed on line 146 of `src/lib.rs`:
`x_raw as f32 / 4096_f32 * (z2_raw as f32 / z1_raw as f32 - 1.0f32)`,
in binary32 arithmetic. -/
def zFormula (x_raw z1_raw z2_raw : Nat) : F32 :=
  fmul (fdiv (natToF32 x_raw) (natToF32 4096))
    (fsub (fdiv (natToF32 z2_raw) (natToF32 z1_raw)) (natToF32 1))

/-- Method `Tsc2046::get_touch`: read X, Y, Z1, Z2 in order, compute the pressure
estimate, and return a present `TouchPoint` exactly when it is below the
touch threshold; bus errors propagate. -/
def get_touch (dev : SpiDevice) (d : Tsc2046) (s : SpiState) :
    Except BusError (Option TouchPoint × SpiState) :=
  match read_axis dev d .X s with
  | .error e => .error e
  | .ok (x_raw, s1) =>
    match read_axis dev d .Y s1 with
    | .error e => .error e
    | .ok (y_raw, s2) =>
      match read_axis dev d .Z1 s2 with
      | .error e => .error e
      | .ok (z1_raw, s3) =>
        match read_axis dev d .Z2 s3 with
        | .error e => .error e
        | .ok (z2_raw, s4) =>
          let z_value := zFormula x_raw z1_raw z2_raw
          if flt z_value d.touch_threshold then
            .ok (some ⟨x_raw, y_raw, z_value⟩, s4)
          else
            .ok (none, s4)

/-- The 3-bit channel-select patterns documented by the spec for bits 6..4
of the command word: X = 101, Y = 001, Pressure-1 = 011, Pressure-2 = 100.
Stated from the spec's words, to be compared with the source's
`Axes::ctrl_bits`. -/
def chanSel : Axes → Nat
  | .X => 0b101
  | .Y => 0b001
  | .Z1 => 0b011
  | .Z2 => 0b100

/-- A device scripting the reply bytes of the repository's
`test_get_touch_no_irq` test: raw samples 100, 100, 5, 2053, each encoded
as `[(V >> 5), (V << 3) & 0xFF]`. -/
def touchReplyDev : SpiDevice := fun n =>
  .ok (if n = 0 then (3, 32) else if n = 1 then (3, 32)
       else if n = 2 then (0, 40) else (64, 40))

/-- A device whose every transaction succeeds with zeroed reply bytes. -/
def zeroDev : SpiDevice := fun _ => .ok (0, 0)

/-- A device whose every transaction fails with bus error `7`. -/
def failDev : SpiDevice := fun _ => .error 7

end TSC2046

namespace TSC2046

/-! ## Helper lemmas -/

/-- Comparison with NaN on the left is always false. -/
theorem flt_nan_left (t : F32) : flt .nan t = false := by cases t <;> rfl

/-- Comparison with NaN on the right is always false. -/
theorem flt_nan_right (z : F32) : flt z .nan = false := by cases z <;> rfl

/-- Nothing is strictly below positive infinity's complement: positive
infinity is strictly less than no binary32 value. -/
theorem flt_posInf_left (t : F32) : flt (.inf false) t = false := by
  cases t <;> simp [flt]

/-- Powers of two are positive rationals. -/
theorem pow2_pos (z : Int) : 0 < pow2 z := by
  unfold pow2
  split
  · exact_mod_cast pow_pos (by norm_num : (0 : ℕ) < 2) _
  · have h : (0 : ℚ) < ((2 ^ (-z).toNat : ℕ) : ℚ) := by
      exact_mod_cast pow_pos (by norm_num : (0 : ℕ) < 2) _
    exact div_pos one_pos h

/-- Rounding a positive rational yields positive infinity or a nonnegative
finite value. -/
theorem roundPos_cases (q : ℚ) :
    roundPos q = .inf false ∨ ∃ r : ℚ, 0 ≤ r ∧ roundPos q = .fin r := by
  unfold roundPos
  dsimp only
  split
  · exact .inl rfl
  · exact .inr ⟨_, mul_nonneg (Nat.cast_nonneg _) (le_of_lt (pow2_pos _)), rfl⟩

/-- Rounding a nonnegative rational yields positive infinity or a
nonnegative finite value. -/
theorem round_nonneg_cases (q : ℚ) (hq : 0 ≤ q) :
    round q = .inf false ∨ ∃ r : ℚ, 0 ≤ r ∧ round q = .fin r := by
  unfold round
  split
  · exact roundPos_cases q
  · split
    · next h _ => exact absurd hq (not_le.mpr (by assumption))
    · exact .inr ⟨0, le_refl 0, rfl⟩

/-- With a zero Pressure-1 sample, the pressure estimate is NaN or positive
infinity, so it is below no threshold: the division by zero flows through
the floating-point semantics and the comparison fails for every threshold,
NaN thresholds included. -/
theorem zFormula_z1_zero (x z2 : Nat) (t : F32) :
    flt (zFormula x 0 z2) t = false := by
  have hz2nn : ¬ ((z2 : ℚ) < 0) := not_lt.mpr (Nat.cast_nonneg z2)
  have hdiv : fdiv (natToF32 z2) (natToF32 0) =
      if (z2 : ℚ) = 0 then F32.nan else .inf false := by
    simp only [natToF32, fdiv, Nat.cast_zero]
    rw [if_pos trivial]
    rcases eq_or_ne ((z2 : ℚ)) 0 with h | h
    · rw [if_pos h, if_pos h]
    · rw [if_neg h, if_neg h, decide_eq_false hz2nn]
  have hx : round ((x : ℚ) * ((4096 : ℚ))⁻¹) = .inf false ∨
      ∃ r : ℚ, 0 ≤ r ∧ round ((x : ℚ) * ((4096 : ℚ))⁻¹) = .fin r :=
    round_nonneg_cases _ (by positivity)
  unfold zFormula
  rw [hdiv]
  have hfd : fdiv (natToF32 x) (natToF32 4096) = round ((x : ℚ) / 4096) := by
    simp [fdiv, natToF32]
  rw [hfd]
  rw [div_eq_mul_inv]
  by_cases hz : (z2 : ℚ) = 0
  · rw [if_pos hz]
    rcases hx with h | ⟨r, hr, h⟩ <;> rw [h]
    · rw [show fsub F32.nan (natToF32 1) = F32.nan from rfl]
      rw [show fmul (F32.inf false) F32.nan = F32.nan from rfl]
      exact flt_nan_left t
    · rw [show fsub F32.nan (natToF32 1) = F32.nan from rfl]
      rw [show fmul (F32.fin r) F32.nan = F32.nan from rfl]
      exact flt_nan_left t
  · rw [if_neg hz]
    rw [show fsub (F32.inf false) (natToF32 1) = F32.inf false from rfl]
    rcases hx with h | ⟨r, hr, h⟩ <;> rw [h]
    · rw [show fmul (F32.inf false) (F32.inf false) = F32.inf false from rfl]
      exact flt_posInf_left t
    · by_cases hr0 : r = 0
      · subst hr0
        rw [show fmul (F32.fin 0) (F32.inf false) = F32.nan by simp [fmul]]
        exact flt_nan_left t
      · have hpos : fmul (F32.fin r) (F32.inf false) = F32.inf false := by
          simp [fmul, hr0, not_lt.mpr hr]
        rw [hpos]
        exact flt_posInf_left t

/-- A successful single-axis read: the device reply decodes to the sample,
the counter advances by one, and the log gains the transaction that wrote
the axis command word and read two bytes. -/
theorem read_axis_ok (dev : SpiDevice) (d : Tsc2046) (axis : Axes)
    (s : SpiState) (b : Nat × Nat) (h : dev s.count = .ok b) :
    read_axis dev d axis s =
      .ok (decode b.1 b.2,
        ⟨s.count + 1, s.log ++ [⟨[controlWord axis d.irq_on], 2⟩]⟩) := by
  unfold read_axis spiTransaction
  rw [h]

/-- A run of `get_touch` on four successful replies: the four transactions
are performed in the order X, Y, Z1, Z2, and the result is present exactly
when the pressure estimate is strictly below the threshold. -/
theorem get_touch_run (dev : SpiDevice) (d : Tsc2046) (s : SpiState)
    (bX bY b1 b2 : Nat × Nat)
    (hX : dev s.count = .ok bX) (hY : dev (s.count + 1) = .ok bY)
    (h1 : dev (s.count + 2) = .ok b1) (h2 : dev (s.count + 3) = .ok b2) :
    get_touch dev d s =
      .ok ((if flt (zFormula (decode bX.1 bX.2) (decode b1.1 b1.2) (decode b2.1 b2.2))
              d.touch_threshold
            then some ⟨decode bX.1 bX.2, decode bY.1 bY.2,
              zFormula (decode bX.1 bX.2) (decode b1.1 b1.2) (decode b2.1 b2.2)⟩
            else none),
        ⟨s.count + 4, s.log ++
          [⟨[controlWord .X d.irq_on], 2⟩, ⟨[controlWord .Y d.irq_on], 2⟩,
           ⟨[controlWord .Z1 d.irq_on], 2⟩, ⟨[controlWord .Z2 d.irq_on], 2⟩]⟩) := by
  unfold get_touch
  rw [read_axis_ok dev d .X s bX hX]
  dsimp only
  rw [read_axis_ok dev d .Y _ bY hY]
  dsimp only
  rw [read_axis_ok dev d .Z1 _ b1 h1]
  dsimp only
  rw [read_axis_ok dev d .Z2 _ b2 h2]
  dsimp only
  simp only [List.append_assoc, List.cons_append, List.singleton_append,
    List.nil_append]
  split <;> rfl

/-- The decoded sample is the low 12 bits of the shifted reply. -/
theorem decode_le (b0 b1 : Nat) : decode b0 b1 ≤ 4095 := Nat.and_le_right

/-- Every successful single-axis read yields a sample of at most 4095. -/
theorem read_axis_le (dev : SpiDevice) (d : Tsc2046) (axis : Axes)
    (s : SpiState) (v : Nat) (s1 : SpiState)
    (h : read_axis dev d axis s = .ok (v, s1)) : v ≤ 4095 := by
  unfold read_axis spiTransaction at h
  cases hd : dev s.count with
  | error e => rw [hd] at h; cases h
  | ok b =>
    rw [hd] at h
    dsimp only at h
    simp only [Except.ok.injEq, Prod.mk.injEq] at h
    obtain ⟨h1, -⟩ := h
    rw [← h1]
    exact decode_le b.1 b.2

/-! ## Claim theorems -/

/-- Claim C1: for every channel in X, Y, Pressure-1, Pressure-2 and both
irq flags, the command word has the Start bit (bit 7) set, the Mode bit
(bit 3) and the SER bit (bit 2) cleared, bits 6..4 equal to the channel's
3-bit select pattern (X = 101, Y = 001, Pressure-1 = 011,
Pressure-2 = 100), and the two PowerDown bits (bits 1..0) cleared exactly
when the interrupt is enabled. -/
theorem claim_C1_command_word (axis : Axes) (irq : Bool) :
    (controlWord axis irq) >>> 7 = 1 ∧
    (controlWord axis irq) &&& ControlBit.MODE = 0 ∧
    (controlWord axis irq) &&& ControlBit.SER = 0 ∧
    ((controlWord axis irq) >>> 4) &&& 7 = chanSel axis ∧
    (controlWord axis irq) &&& 3 = (if irq then 0 else 3) := by
  cases axis <;> cases irq <;> decide

/-- Claim C2: on every sequence of successful bus replies, `get_touch`
never errors; it returns the present `TouchPoint` built from the decoded
samples exactly when the binary32 pressure estimate
`x / 4096 * (z2 / z1 - 1)` is strictly below the threshold, and the absent
value (still a successful result) in every other case. -/
theorem claim_C2_touch_decision (dev : SpiDevice) (d : Tsc2046) (s : SpiState)
    (bX bY b1 b2 : Nat × Nat)
    (hX : dev s.count = .ok bX) (hY : dev (s.count + 1) = .ok bY)
    (h1 : dev (s.count + 2) = .ok b1) (h2 : dev (s.count + 3) = .ok b2) :
    ∃ s' : SpiState,
      get_touch dev d s =
        .ok ((if flt (zFormula (decode bX.1 bX.2) (decode b1.1 b1.2)
                (decode b2.1 b2.2)) d.touch_threshold
              then some ⟨decode bX.1 bX.2, decode bY.1 bY.2,
                zFormula (decode bX.1 bX.2) (decode b1.1 b1.2) (decode b2.1 b2.2)⟩
              else none), s') :=
  ⟨_, get_touch_run dev d s bX bY b1 b2 hX hY h1 h2⟩

theorem claim_C2_witness :
    ∃ s' : SpiState,
      get_touch zeroDev ⟨false, .fin 100⟩ ⟨0, []⟩ =
        .ok ((if flt (zFormula (decode 0 0) (decode 0 0) (decode 0 0)) (F32.fin 100)
              then some ⟨decode 0 0, decode 0 0,
                zFormula (decode 0 0) (decode 0 0) (decode 0 0)⟩
              else none), s') :=
  claim_C2_touch_decision zeroDev ⟨false, .fin 100⟩ ⟨0, []⟩
    (0, 0) (0, 0) (0, 0) (0, 0) rfl rfl rfl rfl

/-- Claim C3: for every 12-bit value V, encoding V as the two bytes
`[(V >> 5), (V << 3) & 0xFF]` and decoding with the driver's
reconstruction (combine big-endian, shift right 3, mask to 12 bits)
round-trips to V. -/
theorem claim_C3_decode_roundtrip (V : Nat) (hV : V < 4096) :
    decode (V >>> 5) ((V <<< 3) &&& 0xFF) = V := by
  have hand8 : ∀ x : Nat, x &&& 255 = x % 256 := fun x =>
    Nat.and_pow_two_sub_one_eq_mod x 8
  have hand12 : ∀ x : Nat, x &&& 4095 = x % 4096 := fun x =>
    Nat.and_pow_two_sub_one_eq_mod x 12
  unfold decode
  rw [hand8, hand12, Nat.shiftLeft_eq, Nat.shiftRight_eq_div_pow,
    Nat.shiftRight_eq_div_pow, Nat.shiftLeft_eq,
    Nat.mul_comm (V / 2 ^ 5 % 256) (2 ^ 8),
    ← Nat.mul_add_lt_is_or (Nat.mod_lt _ (by norm_num)) (V / 2 ^ 5 % 256)]
  simp only [show (2 : ℕ) ^ 8 = 256 from rfl, show (2 : ℕ) ^ 5 = 32 from rfl,
    show (2 : ℕ) ^ 3 = 8 from rfl]
  omega

theorem claim_C3_witness :
    100 < 4096 ∧ decode (100 >>> 5) ((100 <<< 3) &&& 0xFF) = 100 :=
  ⟨by decide, claim_C3_decode_roundtrip 100 (by decide)⟩

/-- Claim C4: on every successful reply sequence whose Pressure-1 sample
decodes to 0, `get_touch` does not error and returns the absent value, for
every X, Y, Pressure-2 reply and every threshold: the division by zero
yields infinity or NaN, which fails the strict comparison with any
threshold. -/
theorem claim_C4_div_zero_no_touch (dev : SpiDevice) (d : Tsc2046) (s : SpiState)
    (bX bY b1 b2 : Nat × Nat)
    (hX : dev s.count = .ok bX) (hY : dev (s.count + 1) = .ok bY)
    (h1 : dev (s.count + 2) = .ok b1) (h2 : dev (s.count + 3) = .ok b2)
    (hz1 : decode b1.1 b1.2 = 0) :
    ∃ s' : SpiState, get_touch dev d s = .ok (none, s') := by
  refine ⟨⟨s.count + 4, s.log ++
    [⟨[controlWord .X d.irq_on], 2⟩, ⟨[controlWord .Y d.irq_on], 2⟩,
     ⟨[controlWord .Z1 d.irq_on], 2⟩, ⟨[controlWord .Z2 d.irq_on], 2⟩]⟩, ?_⟩
  rw [get_touch_run dev d s bX bY b1 b2 hX hY h1 h2, hz1,
    zFormula_z1_zero (decode bX.1 bX.2) (decode b2.1 b2.2) d.touch_threshold]
  simp

theorem claim_C4_witness :
    ∃ s' : SpiState, get_touch zeroDev ⟨false, .fin 100⟩ ⟨0, []⟩ = .ok (none, s') :=
  claim_C4_div_zero_no_touch zeroDev ⟨false, .fin 100⟩ ⟨0, []⟩
    (0, 0) (0, 0) (0, 0) (0, 0) rfl rfl rfl rfl rfl

/-- Claim C5: a `get_touch` call on successful replies issues exactly four
transactions, in the fixed order X, Y, Pressure-1, Pressure-2, each a
1-byte command-word write followed by a 2-byte read, consuming four fresh
device replies (nothing is cached across calls). -/
theorem claim_C5_four_transactions (dev : SpiDevice) (d : Tsc2046) (s : SpiState)
    (bX bY b1 b2 : Nat × Nat)
    (hX : dev s.count = .ok bX) (hY : dev (s.count + 1) = .ok bY)
    (h1 : dev (s.count + 2) = .ok b1) (h2 : dev (s.count + 3) = .ok b2) :
    ∃ r : Option TouchPoint,
      get_touch dev d s =
        .ok (r, ⟨s.count + 4, s.log ++
          [⟨[controlWord .X d.irq_on], 2⟩, ⟨[controlWord .Y d.irq_on], 2⟩,
           ⟨[controlWord .Z1 d.irq_on], 2⟩, ⟨[controlWord .Z2 d.irq_on], 2⟩]⟩) :=
  ⟨_, get_touch_run dev d s bX bY b1 b2 hX hY h1 h2⟩

theorem claim_C5_witness :
    ∃ r : Option TouchPoint,
      get_touch zeroDev ⟨false, .fin 100⟩ ⟨0, []⟩ =
        .ok (r, ⟨4, [⟨[controlWord .X false], 2⟩, ⟨[controlWord .Y false], 2⟩,
          ⟨[controlWord .Z1 false], 2⟩, ⟨[controlWord .Z2 false], 2⟩]⟩) :=
  claim_C5_four_transactions zeroDev ⟨false, .fin 100⟩ ⟨0, []⟩
    (0, 0) (0, 0) (0, 0) (0, 0) rfl rfl rfl rfl

/-- Claim C6: construction issues exactly one configuration transaction
writing the X-channel command word; if that transaction fails the error is
returned and no driver instance is produced, and on success the instance
holds the given flag and threshold with no validation of the threshold
(the threshold argument is arbitrary, negative and infinite values
included). -/
theorem claim_C6_new_config (dev : SpiDevice) (irq : Bool) (th : F32) (s : SpiState) :
    (∀ e : BusError, dev s.count = .error e → Tsc2046.new dev irq th s = .error e) ∧
    (∀ b : Nat × Nat, dev s.count = .ok b →
      Tsc2046.new dev irq th s =
        .ok (⟨irq, th⟩, ⟨s.count + 1, s.log ++ [⟨[controlWord .X irq], 2⟩]⟩)) := by
  constructor
  · intro e h
    unfold Tsc2046.new update_register spiTransaction
    rw [h]
  · intro b h
    unfold Tsc2046.new update_register spiTransaction
    rw [h]

theorem claim_C6_witness :
    Tsc2046.new failDev true (.fin 100) ⟨0, []⟩ = .error 7 ∧
    Tsc2046.new zeroDev false (.fin (-1)) ⟨0, []⟩ =
      .ok (⟨false, .fin (-1)⟩, ⟨1, [⟨[controlWord .X false], 2⟩]⟩) :=
  ⟨(claim_C6_new_config failDev true (.fin 100) ⟨0, []⟩).1 7 rfl,
   (claim_C6_new_config zeroDev false (.fin (-1)) ⟨0, []⟩).2 (0, 0) rfl⟩

/-- Claim C7: `set_irq` updates the stored irq flag before issuing its
configuration transaction, so the flag holds the new value even when the
transaction fails and the error is returned (no rollback); the
configuration transaction and every subsequent read use the command-word
variant for the new flag. -/
theorem claim_C7_set_irq (dev : SpiDevice) (d : Tsc2046) (e : Bool) (s : SpiState) :
    (set_irq dev d e s).2.irq_on = e ∧
    (set_irq dev d e s).2.touch_threshold = d.touch_threshold ∧
    (∀ err : BusError, dev s.count = .error err → (set_irq dev d e s).1 = .error err) ∧
    (∀ b : Nat × Nat, dev s.count = .ok b →
      (set_irq dev d e s).1 =
        .ok ⟨s.count + 1, s.log ++ [⟨[controlWord .X e], 2⟩]⟩) ∧
    (∀ (axis : Axes) (s0 : SpiState) (b : Nat × Nat), dev s0.count = .ok b →
      read_axis dev (set_irq dev d e s).2 axis s0 =
        .ok (decode b.1 b.2, ⟨s0.count + 1, s0.log ++ [⟨[controlWord axis e], 2⟩]⟩)) := by
  refine ⟨rfl, rfl, ?_, ?_, ?_⟩
  · intro err h
    unfold set_irq update_register spiTransaction
    rw [h]
  · intro b h
    unfold set_irq update_register spiTransaction
    rw [h]
  · intro axis s0 b h
    exact read_axis_ok dev _ axis s0 b h

theorem claim_C7_witness :
    (set_irq failDev ⟨false, .fin 0⟩ true ⟨0, []⟩).2.irq_on = true ∧
    (set_irq failDev ⟨false, .fin 0⟩ true ⟨0, []⟩).1 = .error 7 :=
  ⟨(claim_C7_set_irq failDev ⟨false, .fin 0⟩ true ⟨0, []⟩).1,
   (claim_C7_set_irq failDev ⟨false, .fin 0⟩ true ⟨0, []⟩).2.2.1 7 rfl⟩

/-- Claim C8: on raw samples x = 100, y = 100, z1 = 5, z2 = 2053 with
threshold 100.0, `get_touch` returns the present touch point with x = 100,
y = 100 and z exactly the binary32 value 10.0, computed as
`100 / 4096 * (2053 / 5 - 1)` in binary32 arithmetic. -/
theorem claim_C8_example_touch :
    get_touch touchReplyDev ⟨false, .fin 100⟩ ⟨0, []⟩ =
      .ok (some ⟨100, 100, .fin 10⟩,
        ⟨4, [⟨[controlWord .X false], 2⟩, ⟨[controlWord .Y false], 2⟩,
             ⟨[controlWord .Z1 false], 2⟩, ⟨[controlWord .Z2 false], 2⟩]⟩) := by
  with_unfolding_all decide

/-- Claim C9: for every 2-byte reply, bytes with arbitrary extra bits
included, the decoded sample is at most 4095; consequently every present
`TouchPoint` produced by `get_touch` has its x and y fields at most
4095. -/
theorem claim_C9_sample_bounds :
    (∀ b0 b1 : Nat, decode b0 b1 ≤ 4095) ∧
    (∀ (dev : SpiDevice) (d : Tsc2046) (s : SpiState) (tp : TouchPoint)
      (s' : SpiState), get_touch dev d s = .ok (some tp, s') →
        tp.x ≤ 4095 ∧ tp.y ≤ 4095) := by
  refine ⟨fun b0 b1 => decode_le b0 b1, ?_⟩
  intro dev d s tp s' h
  unfold get_touch at h
  cases hX : read_axis dev d .X s with
  | error e => rw [hX] at h; cases h
  | ok pX =>
  obtain ⟨x_raw, s1⟩ := pX
  rw [hX] at h
  dsimp only at h
  cases hY : read_axis dev d .Y s1 with
  | error e => rw [hY] at h; cases h
  | ok pY =>
  obtain ⟨y_raw, s2⟩ := pY
  rw [hY] at h
  dsimp only at h
  cases hZ1 : read_axis dev d .Z1 s2 with
  | error e => rw [hZ1] at h; cases h
  | ok pZ1 =>
  obtain ⟨z1_raw, s3⟩ := pZ1
  rw [hZ1] at h
  dsimp only at h
  cases hZ2 : read_axis dev d .Z2 s3 with
  | error e => rw [hZ2] at h; cases h
  | ok pZ2 =>
  obtain ⟨z2_raw, s4⟩ := pZ2
  rw [hZ2] at h
  dsimp only at h
  split at h
  · simp only [Except.ok.injEq, Prod.mk.injEq, Option.some.injEq] at h
    obtain ⟨htp, -⟩ := h
    rw [← htp]
    exact ⟨read_axis_le dev d .X s x_raw s1 hX, read_axis_le dev d .Y s1 y_raw s2 hY⟩
  · cases h

theorem claim_C9_witness :
    (decode 255 255 ≤ 4095) ∧
    ((⟨100, 100, .fin 10⟩ : TouchPoint).x ≤ 4095 ∧
     (⟨100, 100, .fin 10⟩ : TouchPoint).y ≤ 4095) :=
  ⟨claim_C9_sample_bounds.1 255 255,
   claim_C9_sample_bounds.2 touchReplyDev ⟨false, .fin 100⟩ ⟨0, []⟩
     ⟨100, 100, .fin 10⟩
     ⟨4, [⟨[controlWord .X false], 2⟩, ⟨[controlWord .Y false], 2⟩,
          ⟨[controlWord .Z1 false], 2⟩, ⟨[controlWord .Z2 false], 2⟩]⟩
     (by with_unfolding_all decide)⟩

/-- Claim C10: with the threshold set to NaN through
`set_touch_threshold`, `get_touch` on every successful reply sequence
returns the absent value as a success, never a present point and never an
error, because no value is strictly below NaN: setting a NaN threshold
silently disables touch detection. -/
theorem claim_C10_nan_threshold (dev : SpiDevice) (d : Tsc2046) (s : SpiState)
    (bX bY b1 b2 : Nat × Nat)
    (hX : dev s.count = .ok bX) (hY : dev (s.count + 1) = .ok bY)
    (h1 : dev (s.count + 2) = .ok b1) (h2 : dev (s.count + 3) = .ok b2) :
    ∃ s' : SpiState,
      get_touch dev (set_touch_threshold d .nan) s = .ok (none, s') := by
  refine ⟨⟨s.count + 4, s.log ++
    [⟨[controlWord .X d.irq_on], 2⟩, ⟨[controlWord .Y d.irq_on], 2⟩,
     ⟨[controlWord .Z1 d.irq_on], 2⟩, ⟨[controlWord .Z2 d.irq_on], 2⟩]⟩, ?_⟩
  rw [get_touch_run dev (set_touch_threshold d .nan) s bX bY b1 b2 hX hY h1 h2]
  rw [show (set_touch_threshold d F32.nan).touch_threshold = F32.nan from rfl]
  rw [flt_nan_right]
  simp [set_touch_threshold]

theorem claim_C10_witness :
    ∃ s' : SpiState,
      get_touch zeroDev (set_touch_threshold ⟨false, .fin 100⟩ .nan) ⟨0, []⟩ =
        .ok (none, s') :=
  claim_C10_nan_threshold zeroDev ⟨false, .fin 100⟩ ⟨0, []⟩
    (0, 0) (0, 0) (0, 0) (0, 0) rfl rfl rfl rfl

end TSC2046
